import Mathlib

/-!
# ServiceBus rule resource: create/update, read, delete, import

A shallow embedding of `azurerm/resource_arm_servicebus_rule.go`.

The three lifecycle functions are translated statement by statement.  What they
call but do not define is taken as data:

* the SDK rules client (`CreateOrUpdate`, `Get`, `Delete`) is a record of
  functions over a service state `S`, each returning its Go result pair and the
  next service state;
* `parseAzureResourceID` and `utils.ResponseWasNotFound` are fields of
  `Helpers`;
* `schema.ResourceData` is a record holding the ID and the attribute store, with
  `Id`, `SetId`, `Get` and `Set`.

Every SDK call is appended to a call log, so that statements about which calls
were made, and in which order, can be written down.  `log.Printf` lines have no
effect on any of this and are left out.
-/

namespace azurerm

/-! ## Go values -/

/-- Go `error` values.  `foreign` is an error produced outside this file (by the
SDK or by the ID parser); `errorf` is one built here with `fmt.Errorf`. -/
inductive GoError where
  | foreign (msg : String)
  | errorf (msg : String)
deriving DecidableEq, Repr

/-- The `Error()` method: the message of the error, which is also what the
verb `%+v` prints for an error. -/
def GoError.Error : GoError → String
  | .foreign msg => msg
  | .errorf msg => msg

/-- The `autorest.Response` embedded in every SDK result: the HTTP response, or
`none` when the pointer is nil. -/
structure Response where
  StatusCode : Option Nat
deriving DecidableEq, Repr

/-- The `servicebus.SQLFilter` fields the source names. -/
structure SQLFilter where
  SQLExpression : Option String
deriving DecidableEq, Repr

/-- The `servicebus.Ruleproperties` fields the source names. -/
structure Ruleproperties where
  FilterType : String
  SQLFilter : Option SQLFilter
deriving DecidableEq, Repr

/-- The `servicebus.Rule` fields the source names.  A pointer is an `Option`,
nil being `none`; a field the composite literal in create leaves out is nil. -/
structure Rule where
  Response : Response
  ID : Option String
  Name : Option String
  Ruleproperties : Option Ruleproperties
deriving DecidableEq, Repr

/-- The fields of the parsed resource ID that the source reads:
`id.ResourceGroup` and the map `id.Path`. -/
structure ResourceID where
  ResourceGroup : String
  Path : List (String × String)
deriving DecidableEq, Repr

/-- Go map indexing `id.Path[key]`: the value stored under `key`, or the zero
value `""` when the key is absent. -/
def ResourceID.PathAt (id : ResourceID) (key : String) : String :=
  (id.Path.lookup key).getD ""

/-! ## schema.ResourceData -/

/-- A stored attribute value, one constructor per schema type used by the
resource (`TypeString`, `TypeBool`, `TypeInt`). -/
inductive Value where
  | str (s : String)
  | bool (b : Bool)
  | int (i : Int)
deriving DecidableEq, Repr

/-- The resource data handed to each lifecycle function: the ID and the
attribute store, `none` standing for an attribute that is not set. -/
structure ResourceData where
  id : String
  attrs : String → Option Value

/-- The method `d.Id()`. -/
def ResourceData.Id (d : ResourceData) : String := d.id

/-- The method `d.SetId(v)`. -/
def ResourceData.SetId (d : ResourceData) (v : String) : ResourceData :=
  { d with id := v }

/-- The expression `d.Get(key).(string)` on a `TypeString` attribute: the stored
string, or the zero value `""` when the attribute is not set. -/
def ResourceData.GetString (d : ResourceData) (key : String) : String :=
  match d.attrs key with
  | some (.str s) => s
  | _ => ""

/-- The call `d.Set(key, value)` with `value` a string or a `*string`: a nil
pointer removes the value, anything else stores the string.  Other keys are
untouched.  The keys the source sets are string attributes of the schema; the
error result of `Set`, which the source discards, is not part of the model. -/
def ResourceData.Set (d : ResourceData) (key : String) (value : Option String) : ResourceData :=
  { d with attrs := fun k => if k = key then value.map Value.str else d.attrs k }

/-! ## The SDK client and the helpers of the package -/

/-- One SDK call, with the arguments it was given. -/
inductive Call where
  | CreateOrUpdate (resourceGroupName namespaceName topicName subscriptionName ruleName : String)
      (parameters : Rule)
  | Get (resourceGroupName namespaceName topicName subscriptionName ruleName : String)
  | Delete (resourceGroupName namespaceName topicName subscriptionName ruleName : String)
deriving DecidableEq, Repr

/-- The three methods of `servicebus.RulesClient` the resource uses, over a
service state `S`.  Each returns the Go pair `(result, err)` and the service
state after the call. -/
structure RulesClient (S : Type) where
  CreateOrUpdate : S → String → String → String → String → String → Rule →
    (Rule × Option GoError) × S
  Get : S → String → String → String → String → String → (Rule × Option GoError) × S
  Delete : S → String → String → String → String → String → (Response × Option GoError) × S

/-- The part of `ArmClient` the resource reads. -/
structure ArmClient (S : Type) where
  serviceBusRulesClient : RulesClient S

/-- The two package helpers the resource calls and does not define. -/
structure Helpers where
  parseAzureResourceID : String → Except GoError ResourceID
  ResponseWasNotFound : Response → Bool

/-- What a lifecycle function works on and leaves behind: the resource data, the
service state, and the log of SDK calls made so far, oldest first. -/
structure Run (S : Type) where
  d : ResourceData
  svc : S
  calls : List Call

/-! ## The lifecycle functions -/

/-- The function `resourceArmServiceBusRuleRead`. -/
def resourceArmServiceBusRuleRead {S : Type} (h : Helpers) (m : ArmClient S) (w : Run S) :
    Option GoError × Run S :=
  let client := m.serviceBusRulesClient
  match h.parseAzureResourceID w.d.Id with
  | .error err => (some err, w)
  | .ok id =>
    let resGroup := id.ResourceGroup
    let namespaceName := id.PathAt "namespaces"
    let topicName := id.PathAt "topics"
    let name := id.PathAt "rules"
    let subscriptionName := id.PathAt "subscriptions"
    let out := client.Get w.svc resGroup namespaceName topicName subscriptionName name
    let resp := out.1.1
    let w1 : Run S :=
      { w with
        svc := out.2
        calls := w.calls ++ [Call.Get resGroup namespaceName topicName subscriptionName name] }
    match out.1.2 with
    | some err =>
      if h.ResponseWasNotFound resp.Response then
        (none, { w1 with d := w1.d.SetId "" })
      else
        (some (GoError.errorf
          ("Error making Read request on Azure ServiceBus Rule " ++ name ++ ": " ++ err.Error)), w1)
    | none =>
      let d1 := w1.d.Set "name" resp.Name
      let d2 := d1.Set "resource_group_name" (some resGroup)
      let d3 := d2.Set "namespace_name" (some namespaceName)
      let d4 := d3.Set "topic_name" (some topicName)
      (none, { w1 with d := d4 })

/-- The function `resourceArmServiceBusRuleCreate`. -/
def resourceArmServiceBusRuleCreate {S : Type} (h : Helpers) (m : ArmClient S) (w : Run S) :
    Option GoError × Run S :=
  let client := m.serviceBusRulesClient
  let name := w.d.GetString "name"
  let topicName := w.d.GetString "topic_name"
  let subscriptionName := w.d.GetString "subscription_name"
  let namespaceName := w.d.GetString "namespace_name"
  let resGroup := w.d.GetString "resource_group_name"
  let filterType := w.d.GetString "filtertype"
  let sqlExpression := w.d.GetString "sqlexpression"
  let parameters : Rule :=
    { Response := { StatusCode := none }
      ID := none
      Name := none
      Ruleproperties := some
        { FilterType := filterType
          SQLFilter := some { SQLExpression := some sqlExpression } } }
  let out1 := client.CreateOrUpdate w.svc resGroup namespaceName topicName subscriptionName name
    parameters
  let w1 : Run S :=
    { w with
      svc := out1.2
      calls := w.calls ++
        [Call.CreateOrUpdate resGroup namespaceName topicName subscriptionName name parameters] }
  match out1.1.2 with
  | some err => (some err, w1)
  | none =>
    let out2 := client.Get w1.svc resGroup namespaceName topicName subscriptionName name
    let read := out2.1.1
    let w2 : Run S :=
      { w1 with
        svc := out2.2
        calls := w1.calls ++ [Call.Get resGroup namespaceName topicName subscriptionName name] }
    match out2.1.2 with
    | some err => (some err, w2)
    | none =>
      match read.ID with
      | none =>
        (some (GoError.errorf
          ("Cannot read ServiceBus Rule " ++ name ++ " (resource group " ++ resGroup ++ ") ID")), w2)
      | some readID =>
        resourceArmServiceBusRuleRead h m { w2 with d := w2.d.SetId readID }

/-- The function `resourceArmServiceBusRuleDelete`. -/
def resourceArmServiceBusRuleDelete {S : Type} (h : Helpers) (m : ArmClient S) (w : Run S) :
    Option GoError × Run S :=
  let client := m.serviceBusRulesClient
  match h.parseAzureResourceID w.d.Id with
  | .error err => (some err, w)
  | .ok id =>
    let resGroup := id.ResourceGroup
    let namespaceName := id.PathAt "namespaces"
    let topicName := id.PathAt "topics"
    let name := id.PathAt "rules"
    let subscriptionName := id.PathAt "subscriptions"
    let out := client.Delete w.svc resGroup namespaceName topicName subscriptionName name
    (out.1.2,
      { w with
        svc := out.2
        calls := w.calls ++ [Call.Delete resGroup namespaceName topicName subscriptionName name] })

/-- The importer `schema.ImportStatePassthrough`: the resource data it is given,
which holds the imported ID and no attribute, is handed on as it is. -/
def ImportStatePassthrough (d : ResourceData) : List ResourceData := [d]

/-- The record `schema.Resource` returned by `resourceArmServiceBusRule`: the
four lifecycle entries and the importer. -/
structure Resource (S : Type) where
  Create : Helpers → ArmClient S → Run S → Option GoError × Run S
  Read : Helpers → ArmClient S → Run S → Option GoError × Run S
  Update : Helpers → ArmClient S → Run S → Option GoError × Run S
  Delete : Helpers → ArmClient S → Run S → Option GoError × Run S
  Importer : ResourceData → List ResourceData

/-- The function `resourceArmServiceBusRule`, without its attribute schema. -/
def resourceArmServiceBusRule (S : Type) : Resource S :=
  { Create := resourceArmServiceBusRuleCreate
    Read := resourceArmServiceBusRuleRead
    Update := resourceArmServiceBusRuleCreate
    Delete := resourceArmServiceBusRuleDelete
    Importer := ImportStatePassthrough }

/-! ## Names for the SDK calls the functions make

These abbreviate the calls as the functions above make them, so that statements
can refer to the result of a particular call. -/

/-- The payload create builds from the configuration. -/
def createParameters (d : ResourceData) : Rule :=
  { Response := { StatusCode := none }
    ID := none
    Name := none
    Ruleproperties := some
      { FilterType := d.GetString "filtertype"
        SQLFilter := some { SQLExpression := some (d.GetString "sqlexpression") } } }

/-- The log entry of the `CreateOrUpdate` call of create. -/
def createCall (d : ResourceData) : Call :=
  Call.CreateOrUpdate (d.GetString "resource_group_name") (d.GetString "namespace_name")
    (d.GetString "topic_name") (d.GetString "subscription_name") (d.GetString "name")
    (createParameters d)

/-- The result of the `CreateOrUpdate` call of create. -/
def createOut {S : Type} (m : ArmClient S) (w : Run S) : (Rule × Option GoError) × S :=
  m.serviceBusRulesClient.CreateOrUpdate w.svc (w.d.GetString "resource_group_name")
    (w.d.GetString "namespace_name") (w.d.GetString "topic_name")
    (w.d.GetString "subscription_name") (w.d.GetString "name") (createParameters w.d)

/-- The log entry of the `Get` call create makes after `CreateOrUpdate`. -/
def createGetCall (d : ResourceData) : Call :=
  Call.Get (d.GetString "resource_group_name") (d.GetString "namespace_name")
    (d.GetString "topic_name") (d.GetString "subscription_name") (d.GetString "name")

/-- The result of the `Get` call create makes after `CreateOrUpdate`. -/
def createGetOut {S : Type} (m : ArmClient S) (w : Run S) : (Rule × Option GoError) × S :=
  m.serviceBusRulesClient.Get (createOut m w).2 (w.d.GetString "resource_group_name")
    (w.d.GetString "namespace_name") (w.d.GetString "topic_name")
    (w.d.GetString "subscription_name") (w.d.GetString "name")

/-- The log entry of the `Get` call read makes for a parsed ID. -/
def readGetCall (id : ResourceID) : Call :=
  Call.Get id.ResourceGroup (id.PathAt "namespaces") (id.PathAt "topics")
    (id.PathAt "subscriptions") (id.PathAt "rules")

/-- The result of the `Get` call read makes for a parsed ID, from service state
`svc`. -/
def readGetOut {S : Type} (m : ArmClient S) (svc : S) (id : ResourceID) :
    (Rule × Option GoError) × S :=
  m.serviceBusRulesClient.Get svc id.ResourceGroup (id.PathAt "namespaces") (id.PathAt "topics")
    (id.PathAt "subscriptions") (id.PathAt "rules")

/-- The log entry of the `Delete` call delete makes for a parsed ID. -/
def deleteCall (id : ResourceID) : Call :=
  Call.Delete id.ResourceGroup (id.PathAt "namespaces") (id.PathAt "topics")
    (id.PathAt "subscriptions") (id.PathAt "rules")

/-- The result of the `Delete` call delete makes for a parsed ID. -/
def deleteOut {S : Type} (m : ArmClient S) (svc : S) (id : ResourceID) :
    (Response × Option GoError) × S :=
  m.serviceBusRulesClient.Delete svc id.ResourceGroup (id.PathAt "namespaces")
    (id.PathAt "topics") (id.PathAt "subscriptions") (id.PathAt "rules")

/-- Issuing one logged call: the client method the entry names is applied, with
the arguments the entry records, to service state `svc`; the value is the
service state after the call. -/
def Call.issue {S : Type} (client : RulesClient S) (svc : S) : Call → S
  | .CreateOrUpdate resourceGroupName namespaceName topicName subscriptionName ruleName
      parameters =>
    (client.CreateOrUpdate svc resourceGroupName namespaceName topicName subscriptionName
      ruleName parameters).2
  | .Get resourceGroupName namespaceName topicName subscriptionName ruleName =>
    (client.Get svc resourceGroupName namespaceName topicName subscriptionName ruleName).2
  | .Delete resourceGroupName namespaceName topicName subscriptionName ruleName =>
    (client.Delete svc resourceGroupName namespaceName topicName subscriptionName ruleName).2

/-- Issuing a list of logged calls in order, from service state `svc`: the
service state after the last of them. -/
def issueAll {S : Type} (client : RulesClient S) (svc : S) (calls : List Call) : S :=
  calls.foldl (Call.issue client) svc

/-- Import of a resource by ID: the host hands the importer resource data that
holds the ID and nothing else, and refreshes what the importer returns with
read. -/
def importThenRead {S : Type} (h : Helpers) (m : ArmClient S) (importID : String) (svc : S) :
    List (Option GoError × Run S) :=
  ((resourceArmServiceBusRule S).Importer { id := importID, attrs := fun _ => none }).map
    (fun d => (resourceArmServiceBusRule S).Read h m { d := d, svc := svc, calls := [] })

/-! ## A concrete service, for instances of the statements

The helpers and the client are inputs of the functions.  For concrete runs they
are instantiated as follows: one resource ID is well formed, a response is a
not-found response when its status is 404, and the service answers `Get` calls
from a script. -/

/-- A well-formed rule ID. -/
def sampleID : String :=
  "/subscriptions/sub0/resourceGroups/rg1/providers/Microsoft.ServiceBus/namespaces/ns1/topics/tp1/subscriptions/sb1/rules/rl1"

/-- What `sampleID` parses to. -/
def sampleParsed : ResourceID :=
  { ResourceGroup := "rg1"
    Path := [("providers", "Microsoft.ServiceBus"), ("namespaces", "ns1"), ("topics", "tp1"),
      ("subscriptions", "sb1"), ("rules", "rl1")] }

/-- Sample helpers: `sampleID` parses, every other string is rejected; a
response is not-found when its status code is 404. -/
def sampleHelpers : Helpers :=
  { parseAzureResourceID := fun s =>
      if s = sampleID then .ok sampleParsed
      else .error (GoError.foreign ("Cannot parse Azure Id: " ++ s))
    ResponseWasNotFound := fun r => r.StatusCode == some 404 }

/-- A scripted service.  Its state is the list of answers still to be given to
`Get`; `CreateOrUpdate` and `Delete` return the given errors. -/
def scriptedClient (createErr deleteErr : Option GoError) :
    ArmClient (List (Rule × Option GoError)) :=
  { serviceBusRulesClient :=
    { CreateOrUpdate := fun s _ _ _ _ _ parameters => ((parameters, createErr), s)
      Get := fun s _ _ _ _ _ =>
        match s with
        | [] => (({ Response := { StatusCode := some 404 }, ID := none, Name := none,
                    Ruleproperties := none }, some (GoError.foreign "rule not found")), [])
        | answer :: rest => (answer, rest)
      Delete := fun s _ _ _ _ _ => (({ StatusCode := some 200 }, deleteErr), s) } }

/-- The rule as the sample service holds it. -/
def sampleRule : Rule :=
  { Response := { StatusCode := some 200 }
    ID := some sampleID
    Name := some "rl1"
    Ruleproperties := some { FilterType := "SqlFilter", SQLFilter := some { SQLExpression := some "1=1" } } }

/-- An answer of the service with no rule and the given status and error. -/
def failedAnswer (status : Nat) (msg : String) : Rule × Option GoError :=
  ({ Response := { StatusCode := some status }, ID := none, Name := none, Ruleproperties := none },
    some (GoError.foreign msg))

/-- A configuration for the sample rule. -/
def sampleConfig : ResourceData :=
  { id := ""
    attrs := fun k =>
      if k = "name" then some (Value.str "rl1")
      else if k = "resource_group_name" then some (Value.str "rg1")
      else if k = "namespace_name" then some (Value.str "ns1")
      else if k = "topic_name" then some (Value.str "tp1")
      else if k = "subscription_name" then some (Value.str "sb1")
      else if k = "filtertype" then some (Value.str "SqlFilter")
      else if k = "sqlexpression" then some (Value.str "1=1")
      else if k = "max_delivery_count" then some (Value.int 10)
      else none }

/-- State of the sample rule after an earlier apply: the ID and the configured
attributes. -/
def sampleApplied : ResourceData :=
  { id := sampleID, attrs := sampleConfig.attrs }

/-- The sample rule as the service returns it after a change made elsewhere:
another name, another filter. -/
def driftedRule : Rule :=
  { Response := { StatusCode := some 200 }
    ID := some sampleID
    Name := some "renamed"
    Ruleproperties := some { FilterType := "CorrelationFilter", SQLFilter := none } }

/-- A state that agrees with the sample configuration on the identifying
attributes and the filter, and differs from it in its stored ID, in
`max_delivery_count` and in `requires_session`. -/
def sampleReconfigured : ResourceData :=
  { id := "stale"
    attrs := fun k =>
      if k = "max_delivery_count" then some (Value.int 3)
      else if k = "requires_session" then some (Value.bool true)
      else sampleConfig.attrs k }

/-- Stored state of the sample rule: the ID and no attribute. -/
def sampleStored : ResourceData :=
  { id := sampleID, attrs := fun _ => none }

end azurerm

namespace azurerm

/-! ## Read -/

/-- Read on an ID the parser rejects. -/
theorem read_eq_of_parse_error {S : Type} (h : Helpers) (m : ArmClient S) (w : Run S)
    (err : GoError) (hparse : h.parseAzureResourceID w.d.Id = .error err) :
    resourceArmServiceBusRuleRead h m w = (some err, w) := by
  simp only [resourceArmServiceBusRuleRead, hparse]

/-- Read when `Get` fails with a not-found response. -/
theorem read_eq_of_not_found {S : Type} (h : Helpers) (m : ArmClient S) (w : Run S)
    (id : ResourceID) (err : GoError)
    (hparse : h.parseAzureResourceID w.d.Id = .ok id)
    (herr : (readGetOut m w.svc id).1.2 = some err)
    (hnf : h.ResponseWasNotFound (readGetOut m w.svc id).1.1.Response = true) :
    resourceArmServiceBusRuleRead h m w =
      (none, { d := w.d.SetId "", svc := (readGetOut m w.svc id).2,
               calls := w.calls ++ [readGetCall id] }) := by
  unfold readGetOut at herr hnf
  simp only [resourceArmServiceBusRuleRead, hparse, herr, hnf, readGetOut, readGetCall, if_true]

/-- Read when `Get` fails with any other response. -/
theorem read_eq_of_get_error {S : Type} (h : Helpers) (m : ArmClient S) (w : Run S)
    (id : ResourceID) (err : GoError)
    (hparse : h.parseAzureResourceID w.d.Id = .ok id)
    (herr : (readGetOut m w.svc id).1.2 = some err)
    (hnf : h.ResponseWasNotFound (readGetOut m w.svc id).1.1.Response = false) :
    resourceArmServiceBusRuleRead h m w =
      (some (GoError.errorf ("Error making Read request on Azure ServiceBus Rule " ++
          id.PathAt "rules" ++ ": " ++ err.Error)),
        { d := w.d, svc := (readGetOut m w.svc id).2, calls := w.calls ++ [readGetCall id] }) := by
  unfold readGetOut at herr hnf
  simp only [resourceArmServiceBusRuleRead, hparse, herr, hnf, readGetOut, readGetCall]
  rfl

/-- Read when `Get` succeeds. -/
theorem read_eq_of_get_ok {S : Type} (h : Helpers) (m : ArmClient S) (w : Run S)
    (id : ResourceID)
    (hparse : h.parseAzureResourceID w.d.Id = .ok id)
    (hok : (readGetOut m w.svc id).1.2 = none) :
    resourceArmServiceBusRuleRead h m w =
      (none,
        { d := (((w.d.Set "name" (readGetOut m w.svc id).1.1.Name).Set "resource_group_name"
            (some id.ResourceGroup)).Set "namespace_name" (some (id.PathAt "namespaces"))).Set
            "topic_name" (some (id.PathAt "topics")),
          svc := (readGetOut m w.svc id).2, calls := w.calls ++ [readGetCall id] }) := by
  unfold readGetOut at hok
  simp only [resourceArmServiceBusRuleRead, hparse, hok, readGetOut, readGetCall]

/-- C1: when the stored ID parses and the `Get` call of read returns an error
with a not-found response, read returns no error, sets the ID to the empty
string and writes no attribute. -/
theorem read_not_found_clears_id {S : Type} (h : Helpers) (m : ArmClient S) (w : Run S)
    (id : ResourceID) (err : GoError)
    (hparse : h.parseAzureResourceID w.d.Id = .ok id)
    (herr : (readGetOut m w.svc id).1.2 = some err)
    (hnf : h.ResponseWasNotFound (readGetOut m w.svc id).1.1.Response = true) :
    (resourceArmServiceBusRuleRead h m w).1 = none ∧
    (resourceArmServiceBusRuleRead h m w).2.d.Id = "" ∧
    (resourceArmServiceBusRuleRead h m w).2.d.attrs = w.d.attrs ∧
    (resourceArmServiceBusRuleRead h m w).2.calls = w.calls ++ [readGetCall id] := by
  rw [read_eq_of_not_found h m w id err hparse herr hnf]
  exact ⟨rfl, rfl, rfl, rfl⟩

/-- Instance of C1: the sample ID is stored and the service answers 404. -/
theorem read_not_found_clears_id_witness :
    ((resourceArmServiceBusRuleRead sampleHelpers (scriptedClient none none)
        { d := sampleStored, svc := [failedAnswer 404 "gone"], calls := [] }).1 = none ∧
     (resourceArmServiceBusRuleRead sampleHelpers (scriptedClient none none)
        { d := sampleStored, svc := [failedAnswer 404 "gone"], calls := [] }).2.d.Id = "") ∧
    sampleHelpers.parseAzureResourceID sampleStored.Id = .ok sampleParsed :=
  have hp : sampleHelpers.parseAzureResourceID
      (Run.d (S := List (Rule × Option GoError))
        { d := sampleStored, svc := [failedAnswer 404 "gone"], calls := [] }).Id
      = .ok sampleParsed := rfl
  have r := read_not_found_clears_id sampleHelpers (scriptedClient none none)
    { d := sampleStored, svc := [failedAnswer 404 "gone"], calls := [] }
    sampleParsed (GoError.foreign "gone") hp rfl rfl
  ⟨⟨r.1, r.2.1⟩, hp⟩

/-- C3, as the code has it: when the stored ID parses and the `Get` call of read
returns an error whose response is not a not-found response, read returns a new
error, built with `fmt.Errorf`, whose message is the text
`Error making Read request on Azure ServiceBus Rule`, the rule name taken from
the ID, a colon, and the message of the SDK error. -/
theorem read_wraps_get_error {S : Type} (h : Helpers) (m : ArmClient S) (w : Run S)
    (id : ResourceID) (err : GoError)
    (hparse : h.parseAzureResourceID w.d.Id = .ok id)
    (herr : (readGetOut m w.svc id).1.2 = some err)
    (hnf : h.ResponseWasNotFound (readGetOut m w.svc id).1.1.Response = false) :
    (resourceArmServiceBusRuleRead h m w).1 =
      some (GoError.errorf ("Error making Read request on Azure ServiceBus Rule " ++
        id.PathAt "rules" ++ ": " ++ err.Error)) := by
  rw [read_eq_of_get_error h m w id err hparse herr hnf]

/-- Instance of the amended C3: the sample ID is stored and the service answers
500 with the error `boom`. -/
theorem read_wraps_get_error_witness :
    (resourceArmServiceBusRuleRead sampleHelpers (scriptedClient none none)
        { d := sampleStored, svc := [failedAnswer 500 "boom"], calls := [] }).1 =
      some (GoError.errorf ("Error making Read request on Azure ServiceBus Rule " ++
        sampleParsed.PathAt "rules" ++ ": " ++ (GoError.foreign "boom").Error)) :=
  read_wraps_get_error sampleHelpers (scriptedClient none none)
    { d := sampleStored, svc := [failedAnswer 500 "boom"], calls := [] }
    sampleParsed (GoError.foreign "boom") rfl rfl rfl

/-- C3 fails as stated: the sample ID parses, `Get` returns the error `boom` with
a 500 response, which is not a not-found response, and read returns an error
different from `boom`. -/
theorem read_get_error_not_returned_unchanged :
    sampleHelpers.parseAzureResourceID sampleStored.Id = .ok sampleParsed ∧
    (readGetOut (scriptedClient none none) [failedAnswer 500 "boom"] sampleParsed).1.2 =
      some (GoError.foreign "boom") ∧
    sampleHelpers.ResponseWasNotFound
      (readGetOut (scriptedClient none none) [failedAnswer 500 "boom"] sampleParsed).1.1.Response =
      false ∧
    (resourceArmServiceBusRuleRead sampleHelpers (scriptedClient none none)
        { d := sampleStored, svc := [failedAnswer 500 "boom"], calls := [] }).1 =
      some (GoError.errorf "Error making Read request on Azure ServiceBus Rule rl1: boom") ∧
    (resourceArmServiceBusRuleRead sampleHelpers (scriptedClient none none)
        { d := sampleStored, svc := [failedAnswer 500 "boom"], calls := [] }).1 ≠
      some (GoError.foreign "boom") := by
  refine ⟨rfl, rfl, rfl, ?_, ?_⟩ <;> decide

/-- C10: when the stored ID parses and `Get` succeeds, read returns no error,
leaves the ID as it was, and leaves every attribute other than `name`,
`resource_group_name`, `namespace_name` and `topic_name` at its prior value,
whatever rule the service returned. -/
theorem read_ok_changes_only_four_attributes {S : Type} (h : Helpers) (m : ArmClient S)
    (w : Run S) (id : ResourceID)
    (hparse : h.parseAzureResourceID w.d.Id = .ok id)
    (hok : (readGetOut m w.svc id).1.2 = none) :
    (resourceArmServiceBusRuleRead h m w).1 = none ∧
    (resourceArmServiceBusRuleRead h m w).2.d.Id = w.d.Id ∧
    ∀ key : String, key ≠ "name" → key ≠ "resource_group_name" → key ≠ "namespace_name" →
      key ≠ "topic_name" →
      (resourceArmServiceBusRuleRead h m w).2.d.attrs key = w.d.attrs key := by
  rw [read_eq_of_get_ok h m w id hparse hok]
  refine ⟨rfl, rfl, ?_⟩
  intro key h1 h2 h3 h4
  simp only [ResourceData.Set, if_neg h1, if_neg h2, if_neg h3, if_neg h4]

/-- Instance of C10: the applied sample state is read while the service returns
the rule under another name and with another filter. -/
theorem read_ok_changes_only_four_attributes_witness :
    sampleHelpers.parseAzureResourceID sampleApplied.Id = .ok sampleParsed ∧
    (resourceArmServiceBusRuleRead sampleHelpers (scriptedClient none none)
        { d := sampleApplied, svc := [(driftedRule, none)], calls := [] }).2.d.attrs "filtertype" =
      sampleApplied.attrs "filtertype" ∧
    (resourceArmServiceBusRuleRead sampleHelpers (scriptedClient none none)
        { d := sampleApplied, svc := [(driftedRule, none)], calls := [] }).2.d.attrs
        "subscription_name" = sampleApplied.attrs "subscription_name" :=
  have r := read_ok_changes_only_four_attributes sampleHelpers (scriptedClient none none)
    { d := sampleApplied, svc := [(driftedRule, none)], calls := [] } sampleParsed rfl rfl
  ⟨rfl, r.2.2 "filtertype" (by decide) (by decide) (by decide) (by decide),
    r.2.2 "subscription_name" (by decide) (by decide) (by decide) (by decide)⟩

/-! ## Delete -/

/-- Delete on an ID the parser rejects. -/
theorem delete_eq_of_parse_error {S : Type} (h : Helpers) (m : ArmClient S) (w : Run S)
    (err : GoError) (hparse : h.parseAzureResourceID w.d.Id = .error err) :
    resourceArmServiceBusRuleDelete h m w = (some err, w) := by
  simp only [resourceArmServiceBusRuleDelete, hparse]

/-- Delete on an ID that parses. -/
theorem delete_eq_of_parse_ok {S : Type} (h : Helpers) (m : ArmClient S) (w : Run S)
    (id : ResourceID) (hparse : h.parseAzureResourceID w.d.Id = .ok id) :
    resourceArmServiceBusRuleDelete h m w =
      ((deleteOut m w.svc id).1.2,
        { d := w.d, svc := (deleteOut m w.svc id).2, calls := w.calls ++ [deleteCall id] }) := by
  simp only [resourceArmServiceBusRuleDelete, hparse, deleteOut, deleteCall]

/-- C6: when `parseAzureResourceID` rejects the stored ID, read and delete each
return exactly the parse error and leave the resource data, the service and the
call log as they were: no SDK call is made, the ID and all attributes are
unchanged. -/
theorem parse_error_returned_by_read_and_delete {S : Type} (h : Helpers) (m : ArmClient S)
    (w : Run S) (err : GoError) (hparse : h.parseAzureResourceID w.d.Id = .error err) :
    resourceArmServiceBusRuleRead h m w = (some err, w) ∧
    resourceArmServiceBusRuleDelete h m w = (some err, w) :=
  ⟨read_eq_of_parse_error h m w err hparse, delete_eq_of_parse_error h m w err hparse⟩

/-- Instance of C6: the stored ID is the string `rl1`, which the sample parser
rejects. -/
theorem parse_error_returned_by_read_and_delete_witness :
    sampleHelpers.parseAzureResourceID "rl1" =
      .error (GoError.foreign "Cannot parse Azure Id: rl1") ∧
    (resourceArmServiceBusRuleRead sampleHelpers (scriptedClient none none)
        { d := { id := "rl1", attrs := sampleConfig.attrs }, svc := [(sampleRule, none)],
          calls := [] }).2.calls = [] ∧
    (resourceArmServiceBusRuleDelete sampleHelpers (scriptedClient none none)
        { d := { id := "rl1", attrs := sampleConfig.attrs }, svc := [(sampleRule, none)],
          calls := [] }).1 = some (GoError.foreign "Cannot parse Azure Id: rl1") :=
  have r := parse_error_returned_by_read_and_delete sampleHelpers (scriptedClient none none)
    { d := { id := "rl1", attrs := sampleConfig.attrs }, svc := [(sampleRule, none)],
      calls := [] } (GoError.foreign "Cannot parse Azure Id: rl1") rfl
  ⟨rfl, congrArg (fun x => x.2.calls) r.1, congrArg (fun x => x.1) r.2⟩

/-! ## Create -/

/-- Create when `CreateOrUpdate` fails. -/
theorem create_eq_of_create_error {S : Type} (h : Helpers) (m : ArmClient S) (w : Run S)
    (err : GoError) (herr : (createOut m w).1.2 = some err) :
    resourceArmServiceBusRuleCreate h m w =
      (some err, { d := w.d, svc := (createOut m w).2, calls := w.calls ++ [createCall w.d] }) := by
  unfold createOut createParameters at herr
  simp only [resourceArmServiceBusRuleCreate, herr, createOut, createCall, createParameters]

/-- Create when `CreateOrUpdate` succeeds and the `Get` after it fails. -/
theorem create_eq_of_get_error {S : Type} (h : Helpers) (m : ArmClient S) (w : Run S)
    (err : GoError) (hcreate : (createOut m w).1.2 = none)
    (herr : (createGetOut m w).1.2 = some err) :
    resourceArmServiceBusRuleCreate h m w =
      (some err, { d := w.d, svc := (createGetOut m w).2,
                   calls := w.calls ++ [createCall w.d] ++ [createGetCall w.d] }) := by
  unfold createGetOut at herr
  unfold createOut createParameters at herr hcreate
  simp only [resourceArmServiceBusRuleCreate, hcreate, herr, createOut, createCall,
    createParameters, createGetOut, createGetCall]

/-- Create when both calls succeed and the rule returned has no ID. -/
theorem create_eq_of_missing_id {S : Type} (h : Helpers) (m : ArmClient S) (w : Run S)
    (hcreate : (createOut m w).1.2 = none) (hget : (createGetOut m w).1.2 = none)
    (hid : (createGetOut m w).1.1.ID = none) :
    resourceArmServiceBusRuleCreate h m w =
      (some (GoError.errorf ("Cannot read ServiceBus Rule " ++ w.d.GetString "name" ++
          " (resource group " ++ w.d.GetString "resource_group_name" ++ ") ID")),
        { d := w.d, svc := (createGetOut m w).2,
          calls := w.calls ++ [createCall w.d] ++ [createGetCall w.d] }) := by
  unfold createGetOut at hget hid
  unfold createOut createParameters at hget hid hcreate
  simp only [resourceArmServiceBusRuleCreate, hcreate, hget, hid, createOut, createCall,
    createParameters, createGetOut, createGetCall]

/-- Create when both calls succeed and the rule returned has an ID: the ID is
stored and read runs. -/
theorem create_eq_read {S : Type} (h : Helpers) (m : ArmClient S) (w : Run S) (readID : String)
    (hcreate : (createOut m w).1.2 = none) (hget : (createGetOut m w).1.2 = none)
    (hid : (createGetOut m w).1.1.ID = some readID) :
    resourceArmServiceBusRuleCreate h m w =
      resourceArmServiceBusRuleRead h m
        { d := w.d.SetId readID, svc := (createGetOut m w).2,
          calls := w.calls ++ [createCall w.d] ++ [createGetCall w.d] } := by
  unfold createGetOut at hget hid
  unfold createOut createParameters at hget hid hcreate
  simp only [resourceArmServiceBusRuleCreate, hcreate, hget, hid, createOut, createCall,
    createParameters, createGetOut, createGetCall]

/-- C4: in create, an error returned by `CreateOrUpdate`, or by the `Get` that
follows it, is what create returns, with no SDK call after the failing one and
the resource data as it was; in delete, when the stored ID parses, the return
value is the error (or nil) returned by `Delete`, called once with the resource
group, namespace, topic, subscription and rule taken from the parsed ID. -/
theorem create_and_delete_return_sdk_errors {S : Type} (h : Helpers) (m : ArmClient S)
    (w : Run S) :
    (∀ err : GoError, (createOut m w).1.2 = some err →
      (resourceArmServiceBusRuleCreate h m w).1 = some err ∧
      (resourceArmServiceBusRuleCreate h m w).2.d.Id = w.d.Id ∧
      (resourceArmServiceBusRuleCreate h m w).2.d.attrs = w.d.attrs ∧
      (resourceArmServiceBusRuleCreate h m w).2.calls = w.calls ++ [createCall w.d]) ∧
    (∀ err : GoError, (createOut m w).1.2 = none → (createGetOut m w).1.2 = some err →
      (resourceArmServiceBusRuleCreate h m w).1 = some err ∧
      (resourceArmServiceBusRuleCreate h m w).2.d.Id = w.d.Id ∧
      (resourceArmServiceBusRuleCreate h m w).2.d.attrs = w.d.attrs ∧
      (resourceArmServiceBusRuleCreate h m w).2.calls =
        w.calls ++ [createCall w.d] ++ [createGetCall w.d]) ∧
    (∀ id : ResourceID, h.parseAzureResourceID w.d.Id = .ok id →
      (resourceArmServiceBusRuleDelete h m w).1 =
        (m.serviceBusRulesClient.Delete w.svc id.ResourceGroup (id.PathAt "namespaces")
          (id.PathAt "topics") (id.PathAt "subscriptions") (id.PathAt "rules")).1.2 ∧
      (resourceArmServiceBusRuleDelete h m w).2.calls =
        w.calls ++ [Call.Delete id.ResourceGroup (id.PathAt "namespaces") (id.PathAt "topics")
          (id.PathAt "subscriptions") (id.PathAt "rules")]) := by
  refine ⟨?_, ?_, ?_⟩
  · intro err herr
    rw [create_eq_of_create_error h m w err herr]
    exact ⟨rfl, rfl, rfl, rfl⟩
  · intro err hcreate herr
    rw [create_eq_of_get_error h m w err hcreate herr]
    exact ⟨rfl, rfl, rfl, rfl⟩
  · intro id hparse
    rw [delete_eq_of_parse_ok h m w id hparse]
    exact ⟨rfl, rfl⟩

/-- Instance of C4: `CreateOrUpdate` fails with `denied`; `CreateOrUpdate`
succeeds and the `Get` after it fails with `busy`; `Delete` of the sample rule
fails with `locked`. -/
theorem create_and_delete_return_sdk_errors_witness :
    (createOut (scriptedClient (some (GoError.foreign "denied")) none)
        { d := sampleConfig, svc := [], calls := [] }).1.2 = some (GoError.foreign "denied") ∧
    (resourceArmServiceBusRuleCreate sampleHelpers
        (scriptedClient (some (GoError.foreign "denied")) none)
        { d := sampleConfig, svc := [], calls := [] }).1 = some (GoError.foreign "denied") ∧
    (resourceArmServiceBusRuleCreate sampleHelpers (scriptedClient none none)
        { d := sampleConfig, svc := [failedAnswer 503 "busy"], calls := [] }).1 =
      some (GoError.foreign "busy") ∧
    (resourceArmServiceBusRuleDelete sampleHelpers
        (scriptedClient none (some (GoError.foreign "locked")))
        { d := sampleApplied, svc := [], calls := [] }).2.calls =
      [Call.Delete "rg1" "ns1" "tp1" "sb1" "rl1"] :=
  ⟨rfl,
    ((create_and_delete_return_sdk_errors sampleHelpers
      (scriptedClient (some (GoError.foreign "denied")) none)
      { d := sampleConfig, svc := [], calls := [] }).1 (GoError.foreign "denied") rfl).1,
    ((create_and_delete_return_sdk_errors sampleHelpers (scriptedClient none none)
      { d := sampleConfig, svc := [failedAnswer 503 "busy"], calls := [] }).2.1
      (GoError.foreign "busy") rfl rfl).1,
    ((create_and_delete_return_sdk_errors sampleHelpers
      (scriptedClient none (some (GoError.foreign "locked")))
      { d := sampleApplied, svc := [], calls := [] }).2.2 sampleParsed rfl).2⟩

/-- C5: when `CreateOrUpdate` and the `Get` after it both succeed and the rule
returned has a nil ID, create returns an error, leaves the ID (and the
attributes) as they were, and stops: the call log ends with that `Get`, so the
read step is not run. -/
theorem create_missing_id_is_error {S : Type} (h : Helpers) (m : ArmClient S) (w : Run S)
    (hcreate : (createOut m w).1.2 = none) (hget : (createGetOut m w).1.2 = none)
    (hid : (createGetOut m w).1.1.ID = none) :
    (resourceArmServiceBusRuleCreate h m w).1 =
      some (GoError.errorf ("Cannot read ServiceBus Rule " ++ w.d.GetString "name" ++
        " (resource group " ++ w.d.GetString "resource_group_name" ++ ") ID")) ∧
    (resourceArmServiceBusRuleCreate h m w).2.d.Id = w.d.Id ∧
    (resourceArmServiceBusRuleCreate h m w).2.d.attrs = w.d.attrs ∧
    (resourceArmServiceBusRuleCreate h m w).2.svc = (createGetOut m w).2 ∧
    (resourceArmServiceBusRuleCreate h m w).2.calls =
      w.calls ++ [createCall w.d] ++ [createGetCall w.d] := by
  rw [create_eq_of_missing_id h m w hcreate hget hid]
  exact ⟨rfl, rfl, rfl, rfl, rfl⟩

/-- Instance of C5: the service returns the sample rule without its ID. -/
theorem create_missing_id_is_error_witness :
    (createGetOut (scriptedClient none none)
        { d := sampleConfig, svc := [({ sampleRule with ID := none }, none), (sampleRule, none)],
          calls := [] }).1.1.ID = none ∧
    (resourceArmServiceBusRuleCreate sampleHelpers (scriptedClient none none)
        { d := sampleConfig, svc := [({ sampleRule with ID := none }, none), (sampleRule, none)],
          calls := [] }).2.d.Id = "" ∧
    (resourceArmServiceBusRuleCreate sampleHelpers (scriptedClient none none)
        { d := sampleConfig, svc := [({ sampleRule with ID := none }, none), (sampleRule, none)],
          calls := [] }).2.svc = [(sampleRule, none)] :=
  have r := create_missing_id_is_error sampleHelpers (scriptedClient none none)
    { d := sampleConfig, svc := [({ sampleRule with ID := none }, none), (sampleRule, none)],
      calls := [] } rfl rfl rfl
  ⟨rfl, r.2.1, r.2.2.2.1⟩

/-- C7: take a configuration with name `r`, resource group `g`, namespace `n`,
topic `t` and subscription `s`.  If `CreateOrUpdate` succeeds, the `Get` after it
returns a rule whose ID parses to resource group `g` and path segments
`namespaces = n`, `topics = t`, `subscriptions = s`, `rules = r`, and the `Get` of
the read step returns a rule named `r`, then create returns no error and leaves
the ID equal to the returned ID, `name = r`, `resource_group_name = g`,
`namespace_name = n` and `topic_name = t`. -/
theorem create_then_read_sets_identity {S : Type} (h : Helpers) (m : ArmClient S) (w : Run S)
    (g n t s r readID : String) (id : ResourceID)
    (hr : w.d.GetString "name" = r) (hg : w.d.GetString "resource_group_name" = g)
    (hn : w.d.GetString "namespace_name" = n) (ht : w.d.GetString "topic_name" = t)
    (hs : w.d.GetString "subscription_name" = s)
    (hcreate : (createOut m w).1.2 = none)
    (hget : (m.serviceBusRulesClient.Get (createOut m w).2 g n t s r).1.2 = none)
    (hid : (m.serviceBusRulesClient.Get (createOut m w).2 g n t s r).1.1.ID = some readID)
    (hparse : h.parseAzureResourceID readID = .ok id)
    (hidg : id.ResourceGroup = g) (hidn : id.PathAt "namespaces" = n)
    (hidt : id.PathAt "topics" = t) (hids : id.PathAt "subscriptions" = s)
    (hidr : id.PathAt "rules" = r)
    (hread : (m.serviceBusRulesClient.Get
      (m.serviceBusRulesClient.Get (createOut m w).2 g n t s r).2 g n t s r).1.2 = none)
    (hname : (m.serviceBusRulesClient.Get
      (m.serviceBusRulesClient.Get (createOut m w).2 g n t s r).2 g n t s r).1.1.Name = some r) :
    (resourceArmServiceBusRuleCreate h m w).1 = none ∧
    (resourceArmServiceBusRuleCreate h m w).2.d.Id = readID ∧
    (resourceArmServiceBusRuleCreate h m w).2.d.attrs "name" = some (Value.str r) ∧
    (resourceArmServiceBusRuleCreate h m w).2.d.attrs "resource_group_name" = some (Value.str g) ∧
    (resourceArmServiceBusRuleCreate h m w).2.d.attrs "namespace_name" = some (Value.str n) ∧
    (resourceArmServiceBusRuleCreate h m w).2.d.attrs "topic_name" = some (Value.str t) := by
  have hfirst : createGetOut m w = m.serviceBusRulesClient.Get (createOut m w).2 g n t s r := by
    simp only [createGetOut, hr, hg, hn, ht, hs]
  rw [← hfirst] at hget hid hread hname
  have hout : readGetOut m (createGetOut m w).2 id =
      m.serviceBusRulesClient.Get (createGetOut m w).2 g n t s r := by
    simp only [readGetOut, hidg, hidn, hidt, hids, hidr]
  have hread2 : (readGetOut m (createGetOut m w).2 id).1.2 = none := by rw [hout]; exact hread
  have key := read_eq_of_get_ok h m
    { d := w.d.SetId readID, svc := (createGetOut m w).2,
      calls := w.calls ++ [createCall w.d] ++ [createGetCall w.d] } id hparse hread2
  rw [create_eq_read h m w readID hcreate hget hid, key]
  refine ⟨rfl, rfl, ?_, ?_, ?_, ?_⟩ <;>
    simp [ResourceData.Set, hout, hname, hidg, hidn, hidt]

/-- Instance of C7: the sample configuration is created on a service that
returns the sample rule. -/
theorem create_then_read_sets_identity_witness :
    sampleHelpers.parseAzureResourceID sampleID = .ok sampleParsed ∧
    (resourceArmServiceBusRuleCreate sampleHelpers (scriptedClient none none)
        { d := sampleConfig, svc := [(sampleRule, none), (sampleRule, none)], calls := [] }).1 =
      none ∧
    (resourceArmServiceBusRuleCreate sampleHelpers (scriptedClient none none)
        { d := sampleConfig, svc := [(sampleRule, none), (sampleRule, none)], calls := [] }).2.d.Id =
      sampleID ∧
    (resourceArmServiceBusRuleCreate sampleHelpers (scriptedClient none none)
        { d := sampleConfig, svc := [(sampleRule, none), (sampleRule, none)],
          calls := [] }).2.d.attrs "topic_name" = some (Value.str "tp1") :=
  have r := create_then_read_sets_identity sampleHelpers (scriptedClient none none)
    { d := sampleConfig, svc := [(sampleRule, none), (sampleRule, none)], calls := [] }
    "rg1" "ns1" "tp1" "sb1" "rl1" sampleID sampleParsed
    rfl rfl rfl rfl rfl rfl rfl rfl rfl rfl rfl rfl rfl rfl rfl rfl
  ⟨rfl, r.1, r.2.1, r.2.2.2.2.2⟩

/-- The calls read adds to the log are `Get` calls, and the service state it
leaves is the one reached by issuing them. -/
theorem read_calls {S : Type} (h : Helpers) (m : ArmClient S) (w : Run S) :
    ∃ rest : List Call, (resourceArmServiceBusRuleRead h m w).2.calls = w.calls ++ rest ∧
      (∀ c ∈ rest, ∃ g n t s r : String, c = Call.Get g n t s r) ∧
      (resourceArmServiceBusRuleRead h m w).2.svc =
        issueAll m.serviceBusRulesClient w.svc rest := by
  cases hparse : h.parseAzureResourceID w.d.Id with
  | error err =>
    rw [read_eq_of_parse_error h m w err hparse]
    exact ⟨[], by simp, by simp, rfl⟩
  | ok id =>
    have hmem : ∀ c ∈ [readGetCall id], ∃ g n t s r : String, c = Call.Get g n t s r := by
      intro c hc
      rw [List.mem_singleton] at hc
      exact ⟨_, _, _, _, _, hc⟩
    cases herr : (readGetOut m w.svc id).1.2 with
    | none =>
      rw [read_eq_of_get_ok h m w id hparse herr]
      exact ⟨[readGetCall id], rfl, hmem, rfl⟩
    | some err =>
      cases hnf : h.ResponseWasNotFound (readGetOut m w.svc id).1.1.Response with
      | true =>
        rw [read_eq_of_not_found h m w id err hparse herr hnf]
        exact ⟨[readGetCall id], rfl, hmem, rfl⟩
      | false =>
        rw [read_eq_of_get_error h m w id err hparse herr hnf]
        exact ⟨[readGetCall id], rfl, hmem, rfl⟩

/-- The calls create adds to the log: its `CreateOrUpdate` call, then `Get`
calls only; the service state it leaves is the one reached by issuing those
`Get` calls after the `CreateOrUpdate`. -/
theorem create_calls {S : Type} (h : Helpers) (m : ArmClient S) (w : Run S) :
    ∃ rest : List Call,
      (resourceArmServiceBusRuleCreate h m w).2.calls = w.calls ++ createCall w.d :: rest ∧
      (∀ c ∈ rest, ∃ g n t s r : String, c = Call.Get g n t s r) ∧
      (resourceArmServiceBusRuleCreate h m w).2.svc =
        issueAll m.serviceBusRulesClient (createOut m w).2 rest := by
  cases hcreate : (createOut m w).1.2 with
  | some err =>
    rw [create_eq_of_create_error h m w err hcreate]
    exact ⟨[], rfl, by simp, rfl⟩
  | none =>
    have hmem : ∀ c ∈ [createGetCall w.d], ∃ g n t s r : String, c = Call.Get g n t s r := by
      intro c hc
      rw [List.mem_singleton] at hc
      exact ⟨_, _, _, _, _, hc⟩
    cases hget : (createGetOut m w).1.2 with
    | some err =>
      rw [create_eq_of_get_error h m w err hcreate hget]
      exact ⟨[createGetCall w.d], by simp, hmem, rfl⟩
    | none =>
      cases hid : (createGetOut m w).1.1.ID with
      | none =>
        rw [create_eq_of_missing_id h m w hcreate hget hid]
        exact ⟨[createGetCall w.d], by simp, hmem, rfl⟩
      | some readID =>
        rw [create_eq_read h m w readID hcreate hget hid]
        obtain ⟨rest, hrest, hall, hsvc⟩ := read_calls h m
          { d := w.d.SetId readID, svc := (createGetOut m w).2,
            calls := w.calls ++ [createCall w.d] ++ [createGetCall w.d] }
        refine ⟨createGetCall w.d :: rest, ?_, ?_, ?_⟩
        · rw [hrest]
          simp
        · intro c hc
          rcases List.mem_cons.mp hc with hc | hc
          · exact ⟨_, _, _, _, _, hc⟩
          · exact hall c hc
        · rw [hsvc]
          rfl

/-- C8: update is the same function as create.  A call of it issues one
`CreateOrUpdate`, applied to the service state the run starts from, keyed in
order by `resource_group_name`, `namespace_name`, `topic_name`,
`subscription_name` and `name` of the configuration, with a payload whose filter
type is `filtertype` and whose SQL expression is `sqlexpression`: the log gains
that call, followed by `Get` calls only, and the service state create leaves is
the state after that `CreateOrUpdate` with those `Get` calls issued on it in
order.  The result of the `CreateOrUpdate` is what create goes on: when it is an
error, create returns it and the service is left in the state after that one
call.  Two runs whose configurations agree on those seven attributes send the
same request, whatever their other attributes, stored IDs, service states and
earlier calls. -/
theorem create_issues_one_create_or_update {S : Type} (h : Helpers) (m : ArmClient S)
    (w : Run S) :
    (resourceArmServiceBusRule S).Update = (resourceArmServiceBusRule S).Create ∧
    (∃ rest : List Call,
      (resourceArmServiceBusRuleCreate h m w).2.calls =
        w.calls ++
          Call.CreateOrUpdate (w.d.GetString "resource_group_name")
            (w.d.GetString "namespace_name") (w.d.GetString "topic_name")
            (w.d.GetString "subscription_name") (w.d.GetString "name")
            { Response := { StatusCode := none }
              ID := none
              Name := none
              Ruleproperties := some
                { FilterType := w.d.GetString "filtertype"
                  SQLFilter := some { SQLExpression := some (w.d.GetString "sqlexpression") } } }
          :: rest ∧
      (∀ c ∈ rest, ∃ g n t s r : String, c = Call.Get g n t s r) ∧
      (resourceArmServiceBusRuleCreate h m w).2.svc =
        issueAll m.serviceBusRulesClient
          (m.serviceBusRulesClient.CreateOrUpdate w.svc (w.d.GetString "resource_group_name")
            (w.d.GetString "namespace_name") (w.d.GetString "topic_name")
            (w.d.GetString "subscription_name") (w.d.GetString "name")
            { Response := { StatusCode := none }
              ID := none
              Name := none
              Ruleproperties := some
                { FilterType := w.d.GetString "filtertype"
                  SQLFilter := some
                    { SQLExpression := some (w.d.GetString "sqlexpression") } } }).2
          rest) ∧
    (∀ err : GoError,
      (m.serviceBusRulesClient.CreateOrUpdate w.svc (w.d.GetString "resource_group_name")
        (w.d.GetString "namespace_name") (w.d.GetString "topic_name")
        (w.d.GetString "subscription_name") (w.d.GetString "name")
        { Response := { StatusCode := none }
          ID := none
          Name := none
          Ruleproperties := some
            { FilterType := w.d.GetString "filtertype"
              SQLFilter := some
                { SQLExpression := some (w.d.GetString "sqlexpression") } } }).1.2 = some err →
      (resourceArmServiceBusRuleCreate h m w).1 = some err ∧
      (resourceArmServiceBusRuleCreate h m w).2.svc =
        (m.serviceBusRulesClient.CreateOrUpdate w.svc (w.d.GetString "resource_group_name")
          (w.d.GetString "namespace_name") (w.d.GetString "topic_name")
          (w.d.GetString "subscription_name") (w.d.GetString "name")
          { Response := { StatusCode := none }
            ID := none
            Name := none
            Ruleproperties := some
              { FilterType := w.d.GetString "filtertype"
                SQLFilter := some
                  { SQLExpression := some (w.d.GetString "sqlexpression") } } }).2) ∧
    (∀ w2 : Run S,
      (∀ key ∈ ["resource_group_name", "namespace_name", "topic_name", "subscription_name",
          "name", "filtertype", "sqlexpression"], w2.d.attrs key = w.d.attrs key) →
      (resourceArmServiceBusRuleCreate h m w2).2.calls[w2.calls.length]? =
        (resourceArmServiceBusRuleCreate h m w).2.calls[w.calls.length]?) := by
  refine ⟨rfl, create_calls h m w, ?_, ?_⟩
  · intro err herr
    have herr2 : (createOut m w).1.2 = some err := herr
    rw [create_eq_of_create_error h m w err herr2]
    exact ⟨rfl, rfl⟩
  · intro w2 hagree
    obtain ⟨rest, hrest, -⟩ := create_calls h m w
    obtain ⟨rest2, hrest2, -⟩ := create_calls h m w2
    have hsame : createCall w2.d = createCall w.d := by
      simp only [createCall, createParameters, ResourceData.GetString]
      rw [hagree "resource_group_name" (by simp), hagree "namespace_name" (by simp),
        hagree "topic_name" (by simp), hagree "subscription_name" (by simp),
        hagree "name" (by simp), hagree "filtertype" (by simp), hagree "sqlexpression" (by simp)]
    have hat : ∀ (l r : List Call) (a : Call), (l ++ a :: r)[l.length]? = some a := by
      intro l r a
      rw [List.getElem?_append_right (le_refl _)]
      simp
    rw [hrest, hrest2, hsame, hat, hat]

/-- Instance of C8.  A state with a stale ID, another `max_delivery_count` and
`requires_session` set, run after an earlier call on a service with no rule,
sends the request of the sample configuration: `CreateOrUpdate` keyed by `rg1`,
`ns1`, `tp1`, `sb1`, `rl1` with filter type `SqlFilter` and SQL expression `1=1`.
When that `CreateOrUpdate` fails with `denied`, create returns `denied`. -/
theorem create_issues_one_create_or_update_witness :
    (∀ key ∈ ["resource_group_name", "namespace_name", "topic_name", "subscription_name",
        "name", "filtertype", "sqlexpression"],
      sampleReconfigured.attrs key = sampleConfig.attrs key) ∧
    sampleReconfigured.attrs "max_delivery_count" ≠ sampleConfig.attrs "max_delivery_count" ∧
    (resourceArmServiceBusRuleCreate sampleHelpers (scriptedClient none none)
        { d := sampleReconfigured, svc := [],
          calls := [Call.Get "a" "b" "c" "d" "e"] }).2.calls[1]? =
      some (Call.CreateOrUpdate "rg1" "ns1" "tp1" "sb1" "rl1"
        { Response := { StatusCode := none }
          ID := none
          Name := none
          Ruleproperties := some
            { FilterType := "SqlFilter", SQLFilter := some { SQLExpression := some "1=1" } } }) ∧
    (resourceArmServiceBusRuleCreate sampleHelpers (scriptedClient none none)
        { d := sampleConfig, svc := [(sampleRule, none), (sampleRule, none)],
          calls := [] }).2.calls =
      [Call.CreateOrUpdate "rg1" "ns1" "tp1" "sb1" "rl1"
        { Response := { StatusCode := none }
          ID := none
          Name := none
          Ruleproperties := some
            { FilterType := "SqlFilter", SQLFilter := some { SQLExpression := some "1=1" } } },
        Call.Get "rg1" "ns1" "tp1" "sb1" "rl1", Call.Get "rg1" "ns1" "tp1" "sb1" "rl1"] ∧
    (resourceArmServiceBusRuleCreate sampleHelpers
        (scriptedClient (some (GoError.foreign "denied")) none)
        { d := sampleConfig, svc := [(sampleRule, none)], calls := [] }).1 =
      some (GoError.foreign "denied") :=
  have hagree : ∀ key ∈ ["resource_group_name", "namespace_name", "topic_name",
      "subscription_name", "name", "filtertype", "sqlexpression"],
      sampleReconfigured.attrs key = sampleConfig.attrs key := by decide
  ⟨hagree, by decide,
    ((create_issues_one_create_or_update sampleHelpers (scriptedClient none none)
      { d := sampleConfig, svc := [(sampleRule, none), (sampleRule, none)], calls := [] }).2.2.2
      { d := sampleReconfigured, svc := [], calls := [Call.Get "a" "b" "c" "d" "e"] }
      hagree).trans (by decide),
    by decide,
    ((create_issues_one_create_or_update sampleHelpers
      (scriptedClient (some (GoError.foreign "denied")) none)
      { d := sampleConfig, svc := [(sampleRule, none)], calls := [] }).2.2.1
      (GoError.foreign "denied") rfl).1⟩

/-- C9: when create returns no error, the first `Get` returned an ID, that ID
parses, and either the `Get` of the read step succeeded and the final ID is the
ID the first `Get` returned, or the `Get` of the read step returned an error with
a not-found response and the final ID is the empty string.  In that second
case create does return no error. -/
theorem create_ok_final_id {S : Type} (h : Helpers) (m : ArmClient S) (w : Run S) :
    ((resourceArmServiceBusRuleCreate h m w).1 = none →
      ∃ (readID : String) (id : ResourceID),
        (createGetOut m w).1.1.ID = some readID ∧
        h.parseAzureResourceID readID = .ok id ∧
        (((readGetOut m (createGetOut m w).2 id).1.2 = none ∧
            (resourceArmServiceBusRuleCreate h m w).2.d.Id = readID) ∨
         ((∃ err : GoError, (readGetOut m (createGetOut m w).2 id).1.2 = some err) ∧
            h.ResponseWasNotFound (readGetOut m (createGetOut m w).2 id).1.1.Response = true ∧
            (resourceArmServiceBusRuleCreate h m w).2.d.Id = ""))) ∧
    (∀ (readID : String) (id : ResourceID) (err : GoError),
      (createOut m w).1.2 = none → (createGetOut m w).1.2 = none →
      (createGetOut m w).1.1.ID = some readID →
      h.parseAzureResourceID readID = .ok id →
      (readGetOut m (createGetOut m w).2 id).1.2 = some err →
      h.ResponseWasNotFound (readGetOut m (createGetOut m w).2 id).1.1.Response = true →
      (resourceArmServiceBusRuleCreate h m w).1 = none ∧
      (resourceArmServiceBusRuleCreate h m w).2.d.Id = "") := by
  constructor
  · intro hnone
    cases hcreate : (createOut m w).1.2 with
    | some err =>
      rw [create_eq_of_create_error h m w err hcreate] at hnone
      exact absurd hnone (by simp)
    | none =>
      cases hget : (createGetOut m w).1.2 with
      | some err =>
        rw [create_eq_of_get_error h m w err hcreate hget] at hnone
        exact absurd hnone (by simp)
      | none =>
        cases hid : (createGetOut m w).1.1.ID with
        | none =>
          rw [create_eq_of_missing_id h m w hcreate hget hid] at hnone
          exact absurd hnone (by simp)
        | some readID =>
          have hstep := create_eq_read h m w readID hcreate hget hid
          rw [hstep] at hnone ⊢
          cases hparse : h.parseAzureResourceID readID with
          | error err =>
            have key := read_eq_of_parse_error h m
              { d := w.d.SetId readID, svc := (createGetOut m w).2,
                calls := w.calls ++ [createCall w.d] ++ [createGetCall w.d] } err hparse
            rw [key] at hnone
            exact absurd hnone (by simp)
          | ok id =>
            refine ⟨readID, id, rfl, hparse, ?_⟩
            cases hread : (readGetOut m (createGetOut m w).2 id).1.2 with
            | none =>
              have key := read_eq_of_get_ok h m
                { d := w.d.SetId readID, svc := (createGetOut m w).2,
                  calls := w.calls ++ [createCall w.d] ++ [createGetCall w.d] } id hparse hread
              rw [key]
              exact Or.inl ⟨rfl, rfl⟩
            | some err =>
              cases hnf : h.ResponseWasNotFound
                  (readGetOut m (createGetOut m w).2 id).1.1.Response with
              | true =>
                have key := read_eq_of_not_found h m
                  { d := w.d.SetId readID, svc := (createGetOut m w).2,
                    calls := w.calls ++ [createCall w.d] ++ [createGetCall w.d] } id err hparse
                  hread hnf
                rw [key]
                exact Or.inr ⟨⟨err, rfl⟩, rfl, rfl⟩
              | false =>
                have key := read_eq_of_get_error h m
                  { d := w.d.SetId readID, svc := (createGetOut m w).2,
                    calls := w.calls ++ [createCall w.d] ++ [createGetCall w.d] } id err hparse
                  hread hnf
                rw [key] at hnone
                exact absurd hnone (by simp)
  · intro readID id err hcreate hget hid hparse hread hnf
    have key := read_eq_of_not_found h m
      { d := w.d.SetId readID, svc := (createGetOut m w).2,
        calls := w.calls ++ [createCall w.d] ++ [createGetCall w.d] } id err hparse hread hnf
    rw [create_eq_read h m w readID hcreate hget hid, key]
    exact ⟨rfl, rfl⟩

/-- Instance of C9: the rule is created, returned once with its ID, and gone
when the read step asks for it. -/
theorem create_ok_final_id_witness :
    (resourceArmServiceBusRuleCreate sampleHelpers (scriptedClient none none)
        { d := sampleConfig, svc := [(sampleRule, none), failedAnswer 404 "gone"],
          calls := [] }).1 = none ∧
    (resourceArmServiceBusRuleCreate sampleHelpers (scriptedClient none none)
        { d := sampleConfig, svc := [(sampleRule, none), failedAnswer 404 "gone"],
          calls := [] }).2.d.Id = "" ∧
    (∃ (readID : String) (id : ResourceID),
      (createGetOut (scriptedClient none none)
        { d := sampleConfig, svc := [(sampleRule, none), (sampleRule, none)],
          calls := [] }).1.1.ID = some readID ∧
      sampleHelpers.parseAzureResourceID readID = .ok id) :=
  have r := (create_ok_final_id sampleHelpers (scriptedClient none none)
    { d := sampleConfig, svc := [(sampleRule, none), failedAnswer 404 "gone"], calls := [] }).2
    sampleID sampleParsed (GoError.foreign "gone") rfl rfl rfl rfl rfl rfl
  have q := (create_ok_final_id sampleHelpers (scriptedClient none none)
    { d := sampleConfig, svc := [(sampleRule, none), (sampleRule, none)], calls := [] }).1
    (by decide)
  ⟨r.1, r.2, q.elim fun readID hq => hq.elim fun id hid => ⟨readID, id, hid.1, hid.2.1⟩⟩

/-! ## Import -/

/-- C2 at a concrete import: the sample ID names resource group `rg1`, namespace
`ns1`, topic `tp1`, subscription `sb1` and rule `rl1`, and the service holds that
rule.  Import followed by read returns no error and sets `name`,
`resource_group_name`, `namespace_name` and `topic_name`; `subscription_name` is
left unset and reads as the empty string, not `sb1`. -/
theorem import_leaves_subscription_name_unset :
    sampleHelpers.parseAzureResourceID sampleID = .ok sampleParsed ∧
    sampleParsed.ResourceGroup = "rg1" ∧ sampleParsed.PathAt "namespaces" = "ns1" ∧
    sampleParsed.PathAt "topics" = "tp1" ∧ sampleParsed.PathAt "subscriptions" = "sb1" ∧
    sampleParsed.PathAt "rules" = "rl1" ∧
    (importThenRead sampleHelpers (scriptedClient none none) sampleID [(sampleRule, none)]).map
        (fun out => (out.1, out.2.d.Id, out.2.d.GetString "name",
          out.2.d.GetString "resource_group_name", out.2.d.GetString "namespace_name",
          out.2.d.GetString "topic_name", out.2.d.attrs "subscription_name",
          out.2.d.GetString "subscription_name")) =
      [(none, sampleID, "rl1", "rg1", "ns1", "tp1", none, "")] := by
  exact ⟨rfl, by decide, by decide, by decide, by decide, by decide, rfl⟩

end azurerm
